import Mathlib

/-!
# Validation of Diffie-Hellman parameters (`validate.go`)

A shallow embedding of `DH.check` and `DH.Check` and the properties of the
bitmask they compute and translate.

* `big.Int` values are `Int`; `big.Int.Mod` is the Euclidean remainder (`%` on
  `Int`), `big.Int.Rsh` is the arithmetic shift (`>>>` on `Int`).
* The accumulator `ret` is a Go `int` that starts at zero and is only ever
  OR-ed with the positive flag constants, so it is modelled as a `Nat`.
* `big.Int.ProbablyPrime(1)` belongs to the Go standard library, not to this
  package: `check` and `Check` take it as the parameter `probablyPrime`.
* An `error` is identified by its message: the package creates each of its
  eight errors with a different message.
-/

namespace DHParam

/-! ## Flag constants (validate.go, lines 9-15) -/

def DH_CHECK_P_NOT_PRIME : Nat := 0x01
def DH_CHECK_P_NOT_SAFE_PRIME : Nat := 0x02
def DH_UNABLE_TO_CHECK_GENERATOR : Nat := 0x04
def DH_NOT_SUITABLE_GENERATOR : Nat := 0x08
def DH_CHECK_Q_NOT_PRIME : Nat := 0x10
def DH_CHECK_INVALID_Q_VALUE : Nat := 0x20
def DH_CHECK_INVALID_J_VALUE : Nat := 0x40

/-! ## Data model -/

/-- Modelled from the spec: the declaration of the receiver type `DH` is not in
`validate.go`. The spec's `DHParameters` has the modulus `p`, the generator `g`
and the optional subgroup order `q` and cofactor `j`; `validate.go` reads only
`d.P` (a `*big.Int`) and `d.G` (an integer compared with `2` and `5`). -/
structure DH where
  P : Int
  G : Int
  Q : Option Int
  J : Option Int

/-- An error value, identified by its message. -/
abbrev Error := String

/-- The sentinel `ErrAllParametersOK` (validate.go, line 19). -/
def ErrAllParametersOK : Error := "DH parameters appear to be ok."

/-! ## The primality test -/

/-- Trial division: `true` iff no `k` with `2 ≤ k < n` divides `n`. -/
def noDivisorBelow (n : Nat) : Nat → Bool
  | 0 => true
  | k + 1 => (decide (k < 2) || n % k != 0) && noDivisorBelow n k

/-- The exact primality test on `big.Int` values: `false` on zero and on
negative numbers, otherwise `true` iff the number is a prime. This is what
`x.ProbablyPrime(1)` computes for every `x < 2^64` according to its
documentation, and what it is taken to compute when the test is taken as
exact. -/
def exactProbablyPrime (x : Int) : Bool :=
  match x with
  | Int.ofNat n => decide (2 ≤ n) && noDivisorBelow n n
  | Int.negSucc _ => false

/-- The mathematical statement "the integer `x` is a prime number". -/
def IsPrime (x : Int) : Prop := 0 ≤ x ∧ Nat.Prime x.toNat

/-! ## `DH.check` (validate.go, lines 74-104) -/

/-- The bitmask of `d.check()`; `probablyPrime x` stands for
`x.ProbablyPrime(1)`. -/
def check (probablyPrime : Int → Bool) (d : DH) : Nat :=
  let ret : Nat := 0
  -- Check generator
  let ret :=
    if d.G = 2 then
      let l := d.P % 24
      if l != 11 then ret ||| DH_NOT_SUITABLE_GENERATOR else ret
    else if d.G = 5 then
      let l := d.P % 10
      if l != 3 && l != 7 then ret ||| DH_NOT_SUITABLE_GENERATOR else ret
    else
      ret ||| DH_UNABLE_TO_CHECK_GENERATOR
  let ret :=
    if !probablyPrime d.P then
      ret ||| DH_CHECK_P_NOT_PRIME
    else
      let t1 := d.P >>> (1 : Nat)
      if !probablyPrime t1 then ret ||| DH_CHECK_P_NOT_SAFE_PRIME else ret
  ret

/-! ## `DH.Check` (validate.go, lines 24-72) -/

/-- One `if i&FLAG > 0 { result = append(result, errors.New(msg)); ok = false }`
block of `Check`. -/
def report (i flag : Nat) (msg : Error) (acc : List Error × Bool) : List Error × Bool :=
  if i &&& flag > 0 then (acc.1 ++ [msg], false) else acc

/-- The translation step of `Check` (lines 25-28 and 32-71): what `Check`
does with the bitmask `i` once `d.check()` has returned it. -/
def translate (i : Nat) : List Error × Bool :=
  let acc : List Error × Bool := ([], true)
  let acc := report i DH_CHECK_P_NOT_PRIME "WARNING: p value is not prime" acc
  let acc := report i DH_CHECK_P_NOT_SAFE_PRIME "WARNING: p value is not a safe prime" acc
  let acc := report i DH_CHECK_Q_NOT_PRIME "WARNING: q value is not a prime" acc
  let acc := report i DH_CHECK_INVALID_Q_VALUE "WARNING: q value is invalid" acc
  let acc := report i DH_CHECK_INVALID_J_VALUE "WARNING: j value is invalid" acc
  let acc := report i DH_UNABLE_TO_CHECK_GENERATOR "WARNING: unable to check the generator value" acc
  let acc := report i DH_NOT_SUITABLE_GENERATOR "WARNING: the g value is not a generator" acc
  let result := if i = 0 then acc.1 ++ [ErrAllParametersOK] else acc.1
  (result, acc.2)

/-- The pair `(errors, ok)` returned by `d.Check()`. -/
def Check (probablyPrime : Int → Bool) (d : DH) : List Error × Bool :=
  let i := check probablyPrime d
  translate i

/-! ## The translation table, as the specification words it -/

/-- The fixed table of the specification, in its stated order: p-not-prime,
p-not-safe-prime, q-not-prime, invalid-q, invalid-j,
unable-to-check-generator, not-suitable-generator, each flag with its
message. It follows the specification, not the code, and is compared with
`translate`. -/
def specMessageTable : List (Nat × Error) :=
  [(0x01, "WARNING: p value is not prime"),
   (0x02, "WARNING: p value is not a safe prime"),
   (0x10, "WARNING: q value is not a prime"),
   (0x20, "WARNING: q value is invalid"),
   (0x40, "WARNING: j value is invalid"),
   (0x04, "WARNING: unable to check the generator value"),
   (0x08, "WARNING: the g value is not a generator")]

/-- The sub-list of `specMessageTable` that keeps the message of a flag iff
every bit of the flag is set in `i`, in table order. -/
def specDiagnostics (i : Nat) : List Error :=
  (specMessageTable.filter (fun e => i &&& e.1 == e.1)).map Prod.snd

/-- The number of bits set in `i` among the seven flag positions. -/
def setFlagCount (i : Nat) : Nat :=
  ((List.range 7).filter (fun k => i.testBit k)).length

/-! ## The bitmask is one of nine values -/

/-- Whatever the primality test answers, `check` returns one of nine values. -/
theorem check_cases (pt : Int → Bool) (d : DH) :
    check pt d ∈ [0x00, 0x01, 0x02, 0x04, 0x05, 0x06, 0x08, 0x09, 0x0a] := by
  unfold check
  simp only [DH_NOT_SUITABLE_GENERATOR, DH_UNABLE_TO_CHECK_GENERATOR,
    DH_CHECK_P_NOT_PRIME, DH_CHECK_P_NOT_SAFE_PRIME]
  split_ifs <;> decide

/-! ## The exact primality test agrees with `Nat.Prime` -/

theorem noDivisorBelow_iff (n k : Nat) :
    noDivisorBelow n k = true ↔ ∀ m, 2 ≤ m → m < k → ¬ m ∣ n := by
  induction k with
  | zero => simp [noDivisorBelow]
  | succ k ih =>
    simp only [noDivisorBelow, Bool.and_eq_true, Bool.or_eq_true, decide_eq_true_eq, bne_iff_ne,
      ih]
    constructor
    · rintro ⟨hk, hall⟩ m hm hlt hdvd
      rcases Nat.lt_succ_iff_lt_or_eq.1 hlt with h | h
      · exact hall m hm h hdvd
      · subst h
        rcases hk with hk | hk
        · omega
        · exact hk (Nat.mod_eq_zero_of_dvd hdvd)
    · intro hall
      refine ⟨?_, fun m hm hlt => hall m hm (Nat.lt_succ_of_lt hlt)⟩
      by_cases hk : k < 2
      · exact Or.inl hk
      · exact Or.inr (fun h => hall k (by omega) (Nat.lt_succ_self k) (Nat.dvd_of_mod_eq_zero h))

theorem exactProbablyPrime_iff (x : Int) : exactProbablyPrime x = true ↔ IsPrime x := by
  cases x with
  | ofNat n =>
    simp only [exactProbablyPrime, IsPrime, Bool.and_eq_true, decide_eq_true_eq,
      noDivisorBelow_iff, Int.ofNat_eq_coe, Int.toNat_ofNat, Nat.prime_def_lt']
    constructor
    · rintro ⟨h2, hall⟩
      exact ⟨Int.ofNat_nonneg n, h2, hall⟩
    · rintro ⟨_, h2, hall⟩
      exact ⟨h2, hall⟩
  | negSucc n =>
    simp only [exactProbablyPrime, IsPrime]
    constructor
    · intro h
      cases h
    · rintro ⟨h, _⟩
      exact absurd h (by simp [Int.negSucc_lt_zero])

/-! ## `Check`: verdict and diagnostics -/

/-- The translation of each of the nine values `check` can return. -/
theorem translate_cases (i : Nat)
    (h : i ∈ [0x00, 0x01, 0x02, 0x04, 0x05, 0x06, 0x08, 0x09, 0x0a]) :
    ((translate i).2 = true ↔ i = 0) ∧
    ((translate i).2 = true → (translate i).1 = [ErrAllParametersOK]) ∧
    ((translate i).2 = false →
      (translate i).1 ≠ [] ∧ ErrAllParametersOK ∉ (translate i).1) := by
  simp only [List.mem_cons, List.mem_singleton, List.not_mem_nil, or_false] at h
  rcases h with h | h | h | h | h | h | h | h | h <;> subst h <;> decide

/-- C1: the boolean returned by `Check` is true if and only if the bitmask
computed by `check` for the same parameter set is exactly zero. -/
theorem C1_ok_iff_bitmask_zero (pt : Int → Bool) (d : DH) :
    (Check pt d).2 = true ↔ check pt d = 0 :=
  (translate_cases (check pt d) (check_cases pt d)).1

/-- C2: the list returned by `Check` is never empty; the sentinel
`ErrAllParametersOK` occurs in it iff `ok` is true; when `ok` is true the list
is exactly `[ErrAllParametersOK]`; when `ok` is false the list holds an error
different from the sentinel and no element equal to it. -/
theorem C2_diagnostics_sentinel (pt : Int → Bool) (d : DH) :
    (Check pt d).1 ≠ [] ∧
    (ErrAllParametersOK ∈ (Check pt d).1 ↔ (Check pt d).2 = true) ∧
    ((Check pt d).2 = true → (Check pt d).1 = [ErrAllParametersOK]) ∧
    ((Check pt d).2 = false →
      (∃ e ∈ (Check pt d).1, e ≠ ErrAllParametersOK) ∧
      ErrAllParametersOK ∉ (Check pt d).1) := by
  obtain ⟨_, htrue, hfalse⟩ := translate_cases (check pt d) (check_cases pt d)
  have hfalse2 : (Check pt d).2 = false →
      (∃ e ∈ (Check pt d).1, e ≠ ErrAllParametersOK) ∧
      ErrAllParametersOK ∉ (Check pt d).1 := by
    intro hok
    obtain ⟨hne, hnot⟩ := hfalse hok
    refine ⟨?_, hnot⟩
    obtain ⟨e, he⟩ := List.exists_mem_of_ne_nil _ hne
    exact ⟨e, he, fun heq => hnot (heq ▸ he)⟩
  rcases Bool.eq_false_or_eq_true (Check pt d).2 with hok | hok
  · have hl : (Check pt d).1 = [ErrAllParametersOK] := htrue hok
    refine ⟨?_, ?_, htrue, hfalse2⟩
    · rw [hl]
      exact List.cons_ne_nil _ _
    · rw [hl]
      simp [hok]
  · obtain ⟨⟨e, he, _⟩, hnot⟩ := hfalse2 hok
    refine ⟨List.ne_nil_of_mem he, ?_, htrue, hfalse2⟩
    constructor
    · intro hmem
      exact absurd hmem hnot
    · intro h
      rw [hok] at h
      cases h

/-- Witness for C2 at the safe prime 11 with generator 2 (verdict true) and at
the composite 15 with generator 7 (verdict false). -/
theorem C2_diagnostics_sentinel_witness :
    (Check exactProbablyPrime ⟨11, 2, none, none⟩).1 = [ErrAllParametersOK] ∧
    ((∃ e ∈ (Check exactProbablyPrime ⟨15, 7, none, none⟩).1, e ≠ ErrAllParametersOK) ∧
      ErrAllParametersOK ∉ (Check exactProbablyPrime ⟨15, 7, none, none⟩).1) :=
  ⟨(C2_diagnostics_sentinel exactProbablyPrime ⟨11, 2, none, none⟩).2.2.1 (by decide),
   (C2_diagnostics_sentinel exactProbablyPrime ⟨15, 7, none, none⟩).2.2.2 (by decide)⟩

/-- The translation agrees with the specification's table on every non-zero
bitmask below `0x80`, checked value by value. -/
theorem translate_spec_below (i : Nat) (h1 : 1 ≤ i) (h2 : i < 0x80) :
    (translate i).1 = specDiagnostics i ∧
    (translate i).1.length = setFlagCount i ∧
    (translate i).2 = false := by
  interval_cases i <;> decide

/-- C3: for every non-zero bitmask `i` built from the seven flags
(`1 ≤ i ≤ 0x7f`), the translation step of `Check` yields exactly the sub-list
of the specification's fixed table that keeps the message of a flag iff that
flag is set in `i`, in table order; the length of the list is the number of
set flags and the verdict is not-ok. -/
theorem C3_translation_table (i : Nat) (h1 : 1 ≤ i) (h2 : i ≤ 0x7f) :
    (translate i).1 = specDiagnostics i ∧
    (translate i).1.length = setFlagCount i ∧
    (translate i).2 = false :=
  translate_spec_below i h1 (by omega)

/-- Witness for C3 at the bitmask `0x4a` (p-not-safe-prime, invalid-j and
not-suitable-generator). -/
theorem C3_translation_table_witness :
    1 ≤ 0x4a ∧ 0x4a ≤ 0x7f ∧
    (translate 0x4a).1 = ["WARNING: p value is not a safe prime",
      "WARNING: j value is invalid", "WARNING: the g value is not a generator"] ∧
    (translate 0x4a).1.length = 3 ∧ (translate 0x4a).2 = false :=
  have h := C3_translation_table 0x4a (by decide) (by decide)
  ⟨by decide, by decide, h.1.trans (by decide), h.2.1.trans (by decide), h.2.2⟩

/-! ## What sets each of the four flags -/

/-- Each of the four flags `check` can set, in terms of the conditions the
code tests. -/
theorem check_flags (pt : Int → Bool) (d : DH) :
    (check pt d &&& DH_CHECK_P_NOT_PRIME ≠ 0 ↔ pt d.P = false) ∧
    (check pt d &&& DH_CHECK_P_NOT_SAFE_PRIME ≠ 0 ↔
      pt d.P = true ∧ pt (d.P >>> (1 : Nat)) = false) ∧
    (check pt d &&& DH_UNABLE_TO_CHECK_GENERATOR ≠ 0 ↔ d.G ≠ 2 ∧ d.G ≠ 5) ∧
    (check pt d &&& DH_NOT_SUITABLE_GENERATOR ≠ 0 ↔
      (d.G = 2 ∧ d.P % 24 ≠ 11) ∨ (d.G = 5 ∧ d.P % 10 ≠ 3 ∧ d.P % 10 ≠ 7)) := by
  unfold check
  simp only [DH_NOT_SUITABLE_GENERATOR, DH_UNABLE_TO_CHECK_GENERATOR,
    DH_CHECK_P_NOT_PRIME, DH_CHECK_P_NOT_SAFE_PRIME]
  by_cases hg2 : d.G = 2 <;> by_cases hg5 : d.G = 5 <;>
    by_cases h24 : d.P % 24 = 11 <;> by_cases h3 : d.P % 10 = 3 <;>
    by_cases h7 : d.P % 10 = 7 <;> cases hp : pt d.P <;> cases ht : pt (d.P >>> (1 : Nat)) <;>
    simp [hg2, hg5, h24, h3, h7] <;> decide

/-! ## The generator check -/

/-- C4: with `g = 2`, the bitmask of `check` has `DH_NOT_SUITABLE_GENERATOR`
set if and only if `p mod 24 ≠ 11` (Euclidean remainder), and
`DH_UNABLE_TO_CHECK_GENERATOR` is clear; `p = 23`, a safe prime with
`p mod 24 = 23`, sets not-suitable-generator. -/
theorem C4_generator_two (pt : Int → Bool) (p : Int) (q j : Option Int) :
    (check pt ⟨p, 2, q, j⟩ &&& DH_NOT_SUITABLE_GENERATOR ≠ 0 ↔ p % 24 ≠ 11) ∧
    check pt ⟨p, 2, q, j⟩ &&& DH_UNABLE_TO_CHECK_GENERATOR = 0 ∧
    (IsPrime 23 ∧ IsPrime ((23 - 1) / 2) ∧ (23 : Int) % 24 = 23 ∧
      check exactProbablyPrime ⟨23, 2, none, none⟩ &&& DH_NOT_SUITABLE_GENERATOR ≠ 0) := by
  obtain ⟨_, _, hunable, hnot⟩ := check_flags pt ⟨p, 2, q, j⟩
  refine ⟨?_, ?_, (exactProbablyPrime_iff 23).1 (by decide),
    (exactProbablyPrime_iff ((23 - 1) / 2)).1 (by decide), by decide, by decide⟩
  · rw [hnot]
    simp
  · by_contra hne
    exact (hunable.1 hne).1 rfl

/-- C5: with `g = 5`, the bitmask of `check` has `DH_NOT_SUITABLE_GENERATOR`
set if and only if `p mod 10` is neither 3 nor 7 (Euclidean remainder), and
`DH_UNABLE_TO_CHECK_GENERATOR` is clear. -/
theorem C5_generator_five (pt : Int → Bool) (p : Int) (q j : Option Int) :
    (check pt ⟨p, 5, q, j⟩ &&& DH_NOT_SUITABLE_GENERATOR ≠ 0 ↔ p % 10 ≠ 3 ∧ p % 10 ≠ 7) ∧
    check pt ⟨p, 5, q, j⟩ &&& DH_UNABLE_TO_CHECK_GENERATOR = 0 := by
  obtain ⟨_, _, hunable, hnot⟩ := check_flags pt ⟨p, 5, q, j⟩
  refine ⟨?_, ?_⟩
  · rw [hnot]
    simp
  · by_contra hne
    exact (hunable.1 hne).2 rfl

/-- C6: for every generator `g` other than 2 and 5 and every modulus `p`, the
bitmask of `check` has `DH_UNABLE_TO_CHECK_GENERATOR` set and
`DH_NOT_SUITABLE_GENERATOR` clear, whatever `p` is. -/
theorem C6_generator_other (pt : Int → Bool) (p g : Int) (q j : Option Int)
    (h2 : g ≠ 2) (h5 : g ≠ 5) :
    check pt ⟨p, g, q, j⟩ &&& DH_UNABLE_TO_CHECK_GENERATOR ≠ 0 ∧
    check pt ⟨p, g, q, j⟩ &&& DH_NOT_SUITABLE_GENERATOR = 0 := by
  obtain ⟨_, _, hunable, hnot⟩ := check_flags pt ⟨p, g, q, j⟩
  refine ⟨hunable.2 ⟨h2, h5⟩, ?_⟩
  by_contra hne
  rcases hnot.1 hne with ⟨hg, _⟩ | ⟨hg, _⟩
  · exact h2 hg
  · exact h5 hg

/-- Witness for C6 at `g = 7`, for the safe prime `p = 11` and the composite
`p = 15`. -/
theorem C6_generator_other_witness :
    ((7 : Int) ≠ 2 ∧ (7 : Int) ≠ 5) ∧
    (check exactProbablyPrime ⟨11, 7, none, none⟩ &&& DH_UNABLE_TO_CHECK_GENERATOR ≠ 0 ∧
      check exactProbablyPrime ⟨11, 7, none, none⟩ &&& DH_NOT_SUITABLE_GENERATOR = 0) ∧
    (check exactProbablyPrime ⟨15, 7, none, none⟩ &&& DH_UNABLE_TO_CHECK_GENERATOR ≠ 0 ∧
      check exactProbablyPrime ⟨15, 7, none, none⟩ &&& DH_NOT_SUITABLE_GENERATOR = 0) :=
  ⟨⟨by decide, by decide⟩,
   C6_generator_other exactProbablyPrime 11 7 none none (by decide) (by decide),
   C6_generator_other exactProbablyPrime 15 7 none none (by decide) (by decide)⟩

/-! ## The primality checks -/

/-- C7: for every modulus `p` that fails the primality test and every
generator `g`, the bitmask of `check` has `DH_CHECK_P_NOT_PRIME` set and
`Check` returns `ok = false`; conversely the flag is set only when `p` fails
the primality test. The composite `p = 15` fails the exact test. -/
theorem C7_not_prime (pt : Int → Bool) (p g : Int) (q j : Option Int) :
    (pt p = false →
      check pt ⟨p, g, q, j⟩ &&& DH_CHECK_P_NOT_PRIME ≠ 0 ∧
      (Check pt ⟨p, g, q, j⟩).2 = false) ∧
    (check pt ⟨p, g, q, j⟩ &&& DH_CHECK_P_NOT_PRIME ≠ 0 → pt p = false) ∧
    (¬ IsPrime 15 ∧ exactProbablyPrime 15 = false) := by
  obtain ⟨hprime, _⟩ := check_flags pt ⟨p, g, q, j⟩
  refine ⟨fun hp => ⟨hprime.2 hp, ?_⟩, hprime.1, ?_, by decide⟩
  · have hset := hprime.2 hp
    cases hok : (Check pt ⟨p, g, q, j⟩).2 with
    | false => rfl
    | true =>
      have hz := (translate_cases _ (check_cases pt ⟨p, g, q, j⟩)).1.1 hok
      rw [hz] at hset
      exact absurd rfl hset
  · intro h15
    have := (exactProbablyPrime_iff 15).2 h15
    revert this
    decide

/-- Witness for C7 at the composite `p = 15`, with `g = 2` and with `g = 7`. -/
theorem C7_not_prime_witness :
    exactProbablyPrime 15 = false ∧
    (check exactProbablyPrime ⟨15, 2, none, none⟩ &&& DH_CHECK_P_NOT_PRIME ≠ 0 ∧
      (Check exactProbablyPrime ⟨15, 2, none, none⟩).2 = false) ∧
    (check exactProbablyPrime ⟨15, 7, none, none⟩ &&& DH_CHECK_P_NOT_PRIME ≠ 0 ∧
      (Check exactProbablyPrime ⟨15, 7, none, none⟩).2 = false) :=
  ⟨by decide,
   (C7_not_prime exactProbablyPrime 15 2 none none).1 (by decide),
   (C7_not_prime exactProbablyPrime 15 7 none none).1 (by decide)⟩

/-- For a prime `p`, the shifted value `p >>> (1 : Nat)` is a prime exactly when
`(p - 1) / 2` is: they are equal for odd `p`, and are `1` and `0` for `p = 2`. -/
theorem isPrime_shift_iff (p : Int) (hp : IsPrime p) :
    IsPrime (p >>> (1 : Nat)) ↔ IsPrime ((p - 1) / 2) := by
  obtain ⟨h0, hprime⟩ := hp
  have hshift : p >>> (1 : Nat) = p / 2 := by
    rw [Int.shiftRight_eq_div_pow]
    norm_num
  rw [hshift]
  rcases hprime.eq_two_or_odd with h2 | hodd
  · have hp2 : p = 2 := by omega
    subst hp2
    constructor
    · rintro ⟨_, h⟩
      exact absurd h (by norm_num)
    · rintro ⟨_, h⟩
      exact absurd h (by norm_num)
  · have heq : p / 2 = (p - 1) / 2 := by omega
    rw [heq]

/-- C8: the bitmask of `check` has `DH_CHECK_P_NOT_SAFE_PRIME` set if and only
if `p` is prime and `(p - 1) / 2` is not prime (for any test: iff `p` passes
and `p >> 1` fails; for the exact test: in terms of primality itself). When
`p` is not prime the safe-prime check is skipped, so `DH_CHECK_P_NOT_PRIME`
and `DH_CHECK_P_NOT_SAFE_PRIME` are never both set. `p = 13` sets
p-not-safe-prime with p-not-prime clear. -/
theorem C8_not_safe_prime (pt : Int → Bool) (p g : Int) (q j : Option Int) :
    (check pt ⟨p, g, q, j⟩ &&& DH_CHECK_P_NOT_SAFE_PRIME ≠ 0 ↔
      pt p = true ∧ pt (p >>> (1 : Nat)) = false) ∧
    (check exactProbablyPrime ⟨p, g, q, j⟩ &&& DH_CHECK_P_NOT_SAFE_PRIME ≠ 0 ↔
      IsPrime p ∧ ¬ IsPrime ((p - 1) / 2)) ∧
    (pt p = false → check pt ⟨p, g, q, j⟩ &&& DH_CHECK_P_NOT_SAFE_PRIME = 0) ∧
    ¬ (check pt ⟨p, g, q, j⟩ &&& DH_CHECK_P_NOT_PRIME ≠ 0 ∧
        check pt ⟨p, g, q, j⟩ &&& DH_CHECK_P_NOT_SAFE_PRIME ≠ 0) ∧
    (check exactProbablyPrime ⟨13, g, q, j⟩ &&& DH_CHECK_P_NOT_SAFE_PRIME ≠ 0 ∧
      check exactProbablyPrime ⟨13, g, q, j⟩ &&& DH_CHECK_P_NOT_PRIME = 0) := by
  obtain ⟨hprime, hsafe, _⟩ := check_flags pt ⟨p, g, q, j⟩
  obtain ⟨_, hsafeE, _⟩ := check_flags exactProbablyPrime ⟨p, g, q, j⟩
  obtain ⟨hprime13, hsafe13, _⟩ := check_flags exactProbablyPrime ⟨13, g, q, j⟩
  have e13 : exactProbablyPrime 13 = true := by decide
  have e6 : exactProbablyPrime ((13 : Int) >>> (1 : Nat)) = false := by decide
  refine ⟨hsafe, ?_, ?_, ?_, hsafe13.2 ⟨e13, e6⟩, ?_⟩
  · rw [hsafeE]
    constructor
    · rintro ⟨h1, h2⟩
      have hp := (exactProbablyPrime_iff p).1 h1
      refine ⟨hp, fun hq => ?_⟩
      have := (exactProbablyPrime_iff _).2 ((isPrime_shift_iff p hp).2 hq)
      simp only [DH.P] at h2
      rw [h2] at this
      cases this
    · rintro ⟨hp, hq⟩
      refine ⟨(exactProbablyPrime_iff p).2 hp, ?_⟩
      cases h : exactProbablyPrime (p >>> (1 : Nat)) with
      | false => rfl
      | true => exact absurd ((isPrime_shift_iff p hp).1 ((exactProbablyPrime_iff _).1 h)) hq
  · intro hp
    by_contra hne
    have := (hsafe.1 hne).1
    simp only [DH.P] at this
    rw [hp] at this
    cases this
  · rintro ⟨h1, h2⟩
    have ha := hprime.1 h1
    have hb := (hsafe.1 h2).1
    rw [ha] at hb
    cases hb
  · by_contra hne
    have h13 := hprime13.1 hne
    simp only [DH.P] at h13
    rw [e13] at h13
    cases h13

/-- Witness for C8: the composite 15 fails the exact test, so the safe-prime
check is skipped; the prime 13, with `(13 - 1) / 2 = 6` composite, sets
p-not-safe-prime and leaves p-not-prime clear. -/
theorem C8_not_safe_prime_witness :
    exactProbablyPrime 15 = false ∧
    check exactProbablyPrime ⟨15, 2, none, none⟩ &&& DH_CHECK_P_NOT_SAFE_PRIME = 0 ∧
    (check exactProbablyPrime ⟨13, 2, none, none⟩ &&& DH_CHECK_P_NOT_SAFE_PRIME ≠ 0 ∧
      check exactProbablyPrime ⟨13, 2, none, none⟩ &&& DH_CHECK_P_NOT_PRIME = 0) :=
  ⟨by decide, (C8_not_safe_prime exactProbablyPrime 15 2 none none).2.2.1 (by decide),
   (C8_not_safe_prime exactProbablyPrime 15 2 none none).2.2.2.2⟩

/-! ## Accepted parameter sets -/

/-- C9: for every safe prime `p` (`p` prime and `(p - 1) / 2` prime, the
primality test taken as exact) with `p mod 24 = 11` and `g = 2`, `Check`
returns `ok = true` and the diagnostics list is exactly
`[ErrAllParametersOK]`. -/
theorem C9_safe_prime_accepted (p : Int) (q j : Option Int)
    (hp : IsPrime p) (hq : IsPrime ((p - 1) / 2)) (h24 : p % 24 = 11) :
    Check exactProbablyPrime ⟨p, 2, q, j⟩ = ([ErrAllParametersOK], true) := by
  have h1 : exactProbablyPrime p = true := (exactProbablyPrime_iff p).2 hp
  have h2 : exactProbablyPrime (p >>> (1 : Nat)) = true :=
    (exactProbablyPrime_iff _).2 ((isPrime_shift_iff p hp).2 hq)
  have hz : check exactProbablyPrime ⟨p, 2, q, j⟩ = 0 := by
    unfold check
    simp [h1, h2, h24]
  unfold Check
  rw [hz]
  decide

/-- Witness for C9 at the safe primes 11 and 59. -/
theorem C9_safe_prime_accepted_witness :
    (IsPrime 11 ∧ IsPrime ((11 - 1) / 2) ∧ (11 : Int) % 24 = 11) ∧
    (IsPrime 59 ∧ IsPrime ((59 - 1) / 2) ∧ (59 : Int) % 24 = 11) ∧
    Check exactProbablyPrime ⟨11, 2, none, none⟩ = ([ErrAllParametersOK], true) ∧
    Check exactProbablyPrime ⟨59, 2, none, none⟩ = ([ErrAllParametersOK], true) :=
  ⟨⟨(exactProbablyPrime_iff 11).1 (by decide),
      (exactProbablyPrime_iff ((11 - 1) / 2)).1 (by decide), by decide⟩,
   ⟨(exactProbablyPrime_iff 59).1 (by decide),
      (exactProbablyPrime_iff ((59 - 1) / 2)).1 (by decide), by decide⟩,
   C9_safe_prime_accepted 11 none none ((exactProbablyPrime_iff 11).1 (by decide))
      ((exactProbablyPrime_iff ((11 - 1) / 2)).1 (by decide)) (by decide),
   C9_safe_prime_accepted 59 none none ((exactProbablyPrime_iff 59).1 (by decide))
      ((exactProbablyPrime_iff ((59 - 1) / 2)).1 (by decide)) (by decide)⟩

/-! ## Which combinations of flags occur -/

/-- The two primality flags exclude each other and the two generator flags
exclude each other, whatever the test answers. -/
theorem check_exclusive (pt : Int → Bool) (d : DH) :
    ¬ (check pt d &&& DH_CHECK_P_NOT_PRIME ≠ 0 ∧
        check pt d &&& DH_CHECK_P_NOT_SAFE_PRIME ≠ 0) ∧
    ¬ (check pt d &&& DH_UNABLE_TO_CHECK_GENERATOR ≠ 0 ∧
        check pt d &&& DH_NOT_SUITABLE_GENERATOR ≠ 0) := by
  obtain ⟨hprime, hsafe, hunable, hnot⟩ := check_flags pt d
  constructor
  · rintro ⟨h1, h2⟩
    have ha := hprime.1 h1
    have hb := (hsafe.1 h2).1
    rw [ha] at hb
    cases hb
  · rintro ⟨h1, h2⟩
    obtain ⟨hg2, hg5⟩ := hunable.1 h1
    rcases hnot.1 h2 with ⟨hg, _⟩ | ⟨hg, _⟩
    · exact hg2 hg
    · exact hg5 hg

/-- C10, as stated, fails: no input makes `check` return the subset
`{p-not-prime, p-not-safe-prime}` (bitmask `0x03`), nor the subset
`{unable-to-check-generator, not-suitable-generator}` (bitmask `0x0c`),
whatever the primality test answers. -/
theorem C10_flag_independence_counterexample :
    (¬ ∃ (pt : Int → Bool) (d : DH),
        check pt d = DH_CHECK_P_NOT_PRIME ||| DH_CHECK_P_NOT_SAFE_PRIME) ∧
    (¬ ∃ (pt : Int → Bool) (d : DH),
        check pt d = DH_UNABLE_TO_CHECK_GENERATOR ||| DH_NOT_SUITABLE_GENERATOR) := by
  constructor
  · rintro ⟨pt, d, h⟩
    apply (check_exclusive pt d).1
    rw [h]
    decide
  · rintro ⟨pt, d, h⟩
    apply (check_exclusive pt d).2
    rw [h]
    decide

/-- C10, amended: for every subset `S` of the four reachable flags, some input
`(p, g)` makes the bitmask of `check` exactly `S` if and only if `S` holds at
most one of the two primality flags and at most one of the two generator
flags (the primality test taken as exact). -/
theorem C10_flag_combinations (S : Nat)
    (hS : S &&& (DH_CHECK_P_NOT_PRIME ||| DH_CHECK_P_NOT_SAFE_PRIME |||
      DH_UNABLE_TO_CHECK_GENERATOR ||| DH_NOT_SUITABLE_GENERATOR) = S) :
    (∃ p g : Int, check exactProbablyPrime ⟨p, g, none, none⟩ = S) ↔
      ¬ (S &&& DH_CHECK_P_NOT_PRIME ≠ 0 ∧ S &&& DH_CHECK_P_NOT_SAFE_PRIME ≠ 0) ∧
      ¬ (S &&& DH_UNABLE_TO_CHECK_GENERATOR ≠ 0 ∧ S &&& DH_NOT_SUITABLE_GENERATOR ≠ 0) := by
  constructor
  · rintro ⟨p, g, h⟩
    rw [← h]
    exact check_exclusive exactProbablyPrime ⟨p, g, none, none⟩
  · rintro ⟨hprim, hgen⟩
    have hle : S ≤ 15 := by
      rw [← hS]
      exact Nat.and_le_right
    interval_cases S
    · exact ⟨11, 2, by decide⟩
    · exact ⟨35, 2, by decide⟩
    · exact ⟨131, 2, by decide⟩
    · exact absurd ⟨by decide, by decide⟩ hprim
    · exact ⟨11, 7, by decide⟩
    · exact ⟨15, 7, by decide⟩
    · exact ⟨13, 7, by decide⟩
    · exact absurd ⟨by decide, by decide⟩ hprim
    · exact ⟨23, 2, by decide⟩
    · exact ⟨15, 2, by decide⟩
    · exact ⟨13, 2, by decide⟩
    · exact absurd ⟨by decide, by decide⟩ hprim
    · exact absurd ⟨by decide, by decide⟩ hgen
    · exact absurd ⟨by decide, by decide⟩ hgen
    · exact absurd ⟨by decide, by decide⟩ hgen
    · exact absurd ⟨by decide, by decide⟩ hgen

/-- Witness for C10, amended, at `S = {p-not-prime, unable-to-check-generator}`
(bitmask `0x05`): a composite `p` with an unsupported generator exists. -/
theorem C10_flag_combinations_witness :
    (0x05 &&& (DH_CHECK_P_NOT_PRIME ||| DH_CHECK_P_NOT_SAFE_PRIME |||
      DH_UNABLE_TO_CHECK_GENERATOR ||| DH_NOT_SUITABLE_GENERATOR) = 0x05) ∧
    ∃ p g : Int, check exactProbablyPrime ⟨p, g, none, none⟩ = 0x05 :=
  ⟨by decide, (C10_flag_combinations 0x05 (by decide)).2 ⟨by decide, by decide⟩⟩

/-! ## The reserved flags -/

/-- On each of the nine values `check` can return, the three reserved bits are
clear and the translation holds none of the three reserved warnings. -/
theorem translate_reserved (i : Nat)
    (h : i ∈ [0x00, 0x01, 0x02, 0x04, 0x05, 0x06, 0x08, 0x09, 0x0a]) :
    (i &&& DH_CHECK_Q_NOT_PRIME = 0 ∧ i &&& DH_CHECK_INVALID_Q_VALUE = 0 ∧
      i &&& DH_CHECK_INVALID_J_VALUE = 0) ∧
    ("WARNING: q value is not a prime" ∉ (translate i).1 ∧
      "WARNING: q value is invalid" ∉ (translate i).1 ∧
      "WARNING: j value is invalid" ∉ (translate i).1) := by
  simp only [List.mem_cons, List.mem_singleton, List.not_mem_nil, or_false] at h
  rcases h with h | h | h | h | h | h | h | h | h <;> subst h <;> decide

/-- C11: for every parameter set, the bitmask of `check` never has any of the
reserved flags `DH_CHECK_Q_NOT_PRIME`, `DH_CHECK_INVALID_Q_VALUE` or
`DH_CHECK_INVALID_J_VALUE` set, so the list returned by `Check` never contains
the q-not-prime, invalid-q or invalid-j warnings. -/
theorem C11_reserved_flags_clear (pt : Int → Bool) (d : DH) :
    (check pt d &&& DH_CHECK_Q_NOT_PRIME = 0 ∧
      check pt d &&& DH_CHECK_INVALID_Q_VALUE = 0 ∧
      check pt d &&& DH_CHECK_INVALID_J_VALUE = 0) ∧
    ("WARNING: q value is not a prime" ∉ (Check pt d).1 ∧
      "WARNING: q value is invalid" ∉ (Check pt d).1 ∧
      "WARNING: j value is invalid" ∉ (Check pt d).1) :=
  translate_reserved (check pt d) (check_cases pt d)

/-! ## Determinism -/

/-- C12: `Check` is a function of `(p, g)` alone: two parameter sets that
agree on `p` and `g`, whatever their `q` and `j`, get the same bitmask, the
same diagnostics list and the same verdict (the primality test being a fixed
function of its argument). -/
theorem C12_function_of_p_g (pt : Int → Bool) (d₁ d₂ : DH)
    (hP : d₁.P = d₂.P) (hG : d₁.G = d₂.G) :
    check pt d₁ = check pt d₂ ∧
    (Check pt d₁).1 = (Check pt d₂).1 ∧
    (Check pt d₁).2 = (Check pt d₂).2 := by
  have hc : check pt d₁ = check pt d₂ := by
    unfold check
    rw [hP, hG]
  refine ⟨hc, ?_, ?_⟩
  · unfold Check
    rw [hc]
  · unfold Check
    rw [hc]

/-- Witness for C12: the parameter set `(13, 2)` without `q` and `j` and the
same `(13, 2)` with `q = 6` and `j = 2`. -/
theorem C12_function_of_p_g_witness :
    check exactProbablyPrime ⟨13, 2, none, none⟩ =
      check exactProbablyPrime ⟨13, 2, some 6, some 2⟩ ∧
    (Check exactProbablyPrime ⟨13, 2, none, none⟩).1 =
      (Check exactProbablyPrime ⟨13, 2, some 6, some 2⟩).1 ∧
    (Check exactProbablyPrime ⟨13, 2, none, none⟩).2 =
      (Check exactProbablyPrime ⟨13, 2, some 6, some 2⟩).2 :=
  C12_function_of_p_g exactProbablyPrime ⟨13, 2, none, none⟩ ⟨13, 2, some 6, some 2⟩ rfl rfl

/-! ## The number tested for the safe-prime property -/

/-- The arithmetic shift by one is the floor of the half. -/
theorem shiftRight_one_eq_div (p : Int) : p >>> (1 : Nat) = p / 2 := by
  rw [Int.shiftRight_eq_div_pow]
  norm_num

/-- C13: for every odd integer `p`, the value `t1 = p >> 1` computed by
`check` equals `(p - 1) / 2`, so when `p` passes the primality test the
p-not-safe-prime flag reports the test of exactly `(p - 1) / 2`. -/
theorem C13_shift_is_half_of_pred (pt : Int → Bool) (p g : Int) (q j : Option Int)
    (hodd : p % 2 = 1) :
    p >>> (1 : Nat) = (p - 1) / 2 ∧
    (pt p = true →
      (check pt ⟨p, g, q, j⟩ &&& DH_CHECK_P_NOT_SAFE_PRIME ≠ 0 ↔
        pt ((p - 1) / 2) = false)) := by
  have hshift : p >>> (1 : Nat) = (p - 1) / 2 := by
    rw [shiftRight_one_eq_div]
    omega
  refine ⟨hshift, fun hp => ?_⟩
  obtain ⟨_, hsafe, _⟩ := check_flags pt ⟨p, g, q, j⟩
  rw [hsafe]
  simp only [DH.P]
  rw [hshift]
  constructor
  · rintro ⟨_, h⟩
    exact h
  · intro h
    exact ⟨hp, h⟩

/-- Witness for C13 at the odd prime 13 (tested number 6) and at the negative
odd integer `-3` (shifted value `-2`). -/
theorem C13_shift_is_half_of_pred_witness :
    ((13 : Int) % 2 = 1 ∧ (13 : Int) >>> (1 : Nat) = 6 ∧
      check exactProbablyPrime ⟨13, 2, none, none⟩ &&& DH_CHECK_P_NOT_SAFE_PRIME ≠ 0) ∧
    ((-3 : Int) % 2 = 1 ∧ (-3 : Int) >>> (1 : Nat) = (-3 - 1) / 2) :=
  ⟨⟨by decide, by decide,
     ((C13_shift_is_half_of_pred exactProbablyPrime 13 2 none none (by decide)).2
        (by decide)).2 (by decide)⟩,
   ⟨by decide, (C13_shift_is_half_of_pred exactProbablyPrime (-3) 2 none none (by decide)).1⟩⟩

/-! ## The verdict, characterised -/

/-- C14: `Check` returns `ok = true` if and only if `p` is prime,
`(p - 1) / 2` is prime, and either `g = 2` and `p mod 24 = 11`, or `g = 5` and
`p mod 10` is 3 or 7 (the primality test taken as exact). -/
theorem C14_verdict_characterised (p g : Int) (q j : Option Int) :
    (Check exactProbablyPrime ⟨p, g, q, j⟩).2 = true ↔
      IsPrime p ∧ IsPrime ((p - 1) / 2) ∧
      ((g = 2 ∧ p % 24 = 11) ∨ (g = 5 ∧ (p % 10 = 3 ∨ p % 10 = 7))) := by
  obtain ⟨hprime, hsafe, hunable, hnot⟩ := check_flags exactProbablyPrime ⟨p, g, q, j⟩
  simp only [DH.P, DH.G] at hprime hsafe hunable hnot
  have hok : (Check exactProbablyPrime ⟨p, g, q, j⟩).2 = true ↔
      check exactProbablyPrime ⟨p, g, q, j⟩ = 0 :=
    (translate_cases _ (check_cases exactProbablyPrime ⟨p, g, q, j⟩)).1
  rw [hok]
  constructor
  · intro hz
    rw [hz] at hprime hsafe hunable hnot
    have h1 : exactProbablyPrime p = true := by
      cases h : exactProbablyPrime p with
      | true => rfl
      | false => exact absurd (Nat.zero_and _) (hprime.2 h)
    have h2 : exactProbablyPrime (p >>> (1 : Nat)) = true := by
      cases h : exactProbablyPrime (p >>> (1 : Nat)) with
      | true => rfl
      | false => exact absurd (Nat.zero_and _) (hsafe.2 ⟨h1, h⟩)
    have hp : IsPrime p := (exactProbablyPrime_iff p).1 h1
    have hq : IsPrime ((p - 1) / 2) :=
      (isPrime_shift_iff p hp).1 ((exactProbablyPrime_iff _).1 h2)
    refine ⟨hp, hq, ?_⟩
    by_cases hg2 : g = 2
    · left
      refine ⟨hg2, ?_⟩
      by_contra h24
      exact hnot.2 (Or.inl ⟨hg2, h24⟩) (Nat.zero_and _)
    · by_cases hg5 : g = 5
      · right
        refine ⟨hg5, ?_⟩
        by_contra h10
        exact hnot.2 (Or.inr ⟨hg5, fun h => h10 (Or.inl h), fun h => h10 (Or.inr h)⟩)
          (Nat.zero_and _)
      · exact absurd (Nat.zero_and _) (hunable.2 ⟨hg2, hg5⟩)
  · rintro ⟨hp, hq, hgen⟩
    have h1 : exactProbablyPrime p = true := (exactProbablyPrime_iff p).2 hp
    have h2 : exactProbablyPrime (p >>> (1 : Nat)) = true :=
      (exactProbablyPrime_iff _).2 ((isPrime_shift_iff p hp).2 hq)
    have c1 : check exactProbablyPrime ⟨p, g, q, j⟩ &&& DH_CHECK_P_NOT_PRIME = 0 := by
      by_contra hne
      have := hprime.1 hne
      rw [h1] at this
      cases this
    have c2 : check exactProbablyPrime ⟨p, g, q, j⟩ &&& DH_CHECK_P_NOT_SAFE_PRIME = 0 := by
      by_contra hne
      have := (hsafe.1 hne).2
      rw [h2] at this
      cases this
    have c4 : check exactProbablyPrime ⟨p, g, q, j⟩ &&& DH_UNABLE_TO_CHECK_GENERATOR = 0 := by
      by_contra hne
      obtain ⟨hg2, hg5⟩ := hunable.1 hne
      rcases hgen with ⟨hg, _⟩ | ⟨hg, _⟩
      · exact hg2 hg
      · exact hg5 hg
    have c8 : check exactProbablyPrime ⟨p, g, q, j⟩ &&& DH_NOT_SUITABLE_GENERATOR = 0 := by
      by_contra hne
      rcases hnot.1 hne with ⟨hg, h24⟩ | ⟨hg, h3, h7⟩
      · rcases hgen with ⟨_, h⟩ | ⟨hg5, _⟩
        · exact h24 h
        · rw [hg] at hg5
          exact absurd hg5 (by decide)
      · rcases hgen with ⟨hg2, _⟩ | ⟨_, h | h⟩
        · rw [hg] at hg2
          exact absurd hg2 (by decide)
        · exact h3 h
        · exact h7 h
    have hmem := check_cases exactProbablyPrime ⟨p, g, q, j⟩
    revert c1 c2 c4 c8 hmem
    generalize check exactProbablyPrime ⟨p, g, q, j⟩ = i
    intro c1 c2 c4 c8 hmem
    simp only [List.mem_cons, List.mem_singleton, List.not_mem_nil, or_false] at hmem
    rcases hmem with h | h | h | h | h | h | h | h | h <;> subst h <;>
      first
        | rfl
        | exact absurd c1 (by decide)
        | exact absurd c2 (by decide)
        | exact absurd c4 (by decide)
        | exact absurd c8 (by decide)

/-! ## The set of returned bitmasks -/

/-- Each of the nine values is returned by `check` for some input `(p, g)`,
under the exact primality test. -/
theorem check_reaches (S : Nat)
    (h : S ∈ [0x00, 0x01, 0x02, 0x04, 0x05, 0x06, 0x08, 0x09, 0x0a]) :
    ∃ p g : Int, check exactProbablyPrime ⟨p, g, none, none⟩ = S := by
  simp only [List.mem_cons, List.mem_singleton, List.not_mem_nil, or_false] at h
  rcases h with h | h | h | h | h | h | h | h | h <;> subst h
  · exact ⟨11, 2, by decide⟩
  · exact ⟨35, 2, by decide⟩
  · exact ⟨131, 2, by decide⟩
  · exact ⟨11, 7, by decide⟩
  · exact ⟨15, 7, by decide⟩
  · exact ⟨13, 7, by decide⟩
  · exact ⟨23, 2, by decide⟩
  · exact ⟨15, 2, by decide⟩
  · exact ⟨13, 2, by decide⟩

/-- C15: the set of bitmasks `check` can return is exactly
`{0x00, 0x01, 0x02, 0x04, 0x05, 0x06, 0x08, 0x09, 0x0a}`: for every input the
result is one of the nine (at most one primality flag, at most one generator
flag, no other bit), and a value is returned for some input `(p, g)` if and
only if it is one of the nine. -/
theorem C15_bitmask_range (S : Nat) :
    ((∃ p g : Int, check exactProbablyPrime ⟨p, g, none, none⟩ = S) ↔
      S ∈ [0x00, 0x01, 0x02, 0x04, 0x05, 0x06, 0x08, 0x09, 0x0a]) ∧
    (∀ (pt : Int → Bool) (d : DH),
      check pt d ∈ [0x00, 0x01, 0x02, 0x04, 0x05, 0x06, 0x08, 0x09, 0x0a] ∧
      ¬ (check pt d &&& DH_CHECK_P_NOT_PRIME ≠ 0 ∧
          check pt d &&& DH_CHECK_P_NOT_SAFE_PRIME ≠ 0) ∧
      ¬ (check pt d &&& DH_UNABLE_TO_CHECK_GENERATOR ≠ 0 ∧
          check pt d &&& DH_NOT_SUITABLE_GENERATOR ≠ 0) ∧
      check pt d &&& (DH_CHECK_P_NOT_PRIME ||| DH_CHECK_P_NOT_SAFE_PRIME |||
        DH_UNABLE_TO_CHECK_GENERATOR ||| DH_NOT_SUITABLE_GENERATOR) = check pt d) := by
  refine ⟨⟨?_, check_reaches S⟩, fun pt d => ?_⟩
  · rintro ⟨p, g, h⟩
    rw [← h]
    exact check_cases exactProbablyPrime ⟨p, g, none, none⟩
  · refine ⟨check_cases pt d, (check_exclusive pt d).1, (check_exclusive pt d).2, ?_⟩
    have hmem := check_cases pt d
    revert hmem
    generalize check pt d = i
    intro hmem
    simp only [List.mem_cons, List.mem_singleton, List.not_mem_nil, or_false] at hmem
    rcases hmem with h | h | h | h | h | h | h | h | h <;> subst h <;> decide

/-! ## Boundary moduli -/

/-- A set flag makes the verdict of `Check` false. -/
theorem Check_not_ok_of_flag (pt : Int → Bool) (d : DH) (flag : Nat)
    (h : check pt d &&& flag ≠ 0) : (Check pt d).2 = false := by
  cases hok : (Check pt d).2 with
  | false => rfl
  | true =>
    have hz : check pt d = 0 := (translate_cases _ (check_cases pt d)).1.1 hok
    rw [hz] at h
    exact absurd (Nat.zero_and _) h

/-- No integer `p ≤ 1` and no even integer above 2 is a prime. -/
theorem not_isPrime_boundary (p : Int) (h : p ≤ 1 ∨ (p % 2 = 0 ∧ 2 < p)) : ¬ IsPrime p := by
  rintro ⟨h0, hprime⟩
  have h2 := hprime.two_le
  rcases h with h | ⟨heven, hgt⟩
  · omega
  · rcases hprime.eq_two_or_odd with h | h
    · omega
    · omega

/-- C16: boundary moduli are never accepted (the primality test taken as
exact): for every generator `g` and every modulus `p` that is even or at most
2, zero and negative `p` included, `Check` returns `ok = false`; p-not-prime
is set when `p ≤ 1` or `p` is even and greater than 2, and p-not-safe-prime,
with p-not-prime clear, is set when `p = 2`. -/
theorem C16_boundary_moduli (p g : Int) (q j : Option Int) :
    ((p % 2 = 0 ∨ p ≤ 2) → (Check exactProbablyPrime ⟨p, g, q, j⟩).2 = false) ∧
    ((p ≤ 1 ∨ (p % 2 = 0 ∧ 2 < p)) →
      check exactProbablyPrime ⟨p, g, q, j⟩ &&& DH_CHECK_P_NOT_PRIME ≠ 0) ∧
    (p = 2 →
      check exactProbablyPrime ⟨p, g, q, j⟩ &&& DH_CHECK_P_NOT_SAFE_PRIME ≠ 0 ∧
      check exactProbablyPrime ⟨p, g, q, j⟩ &&& DH_CHECK_P_NOT_PRIME = 0) := by
  obtain ⟨hprime, hsafe, _⟩ := check_flags exactProbablyPrime ⟨p, g, q, j⟩
  simp only [DH.P] at hprime hsafe
  have hnp : (p ≤ 1 ∨ (p % 2 = 0 ∧ 2 < p)) →
      check exactProbablyPrime ⟨p, g, q, j⟩ &&& DH_CHECK_P_NOT_PRIME ≠ 0 := by
    intro h
    apply hprime.2
    cases hx : exactProbablyPrime p with
    | false => rfl
    | true => exact absurd ((exactProbablyPrime_iff p).1 hx) (not_isPrime_boundary p h)
  have htwo : p = 2 →
      check exactProbablyPrime ⟨p, g, q, j⟩ &&& DH_CHECK_P_NOT_SAFE_PRIME ≠ 0 ∧
      check exactProbablyPrime ⟨p, g, q, j⟩ &&& DH_CHECK_P_NOT_PRIME = 0 := by
    intro h2
    subst h2
    have e2 : exactProbablyPrime 2 = true := by decide
    have e1 : exactProbablyPrime ((2 : Int) >>> (1 : Nat)) = false := by decide
    refine ⟨hsafe.2 ⟨e2, e1⟩, ?_⟩
    by_contra hne
    have := hprime.1 hne
    rw [e2] at this
    cases this
  refine ⟨fun h => ?_, hnp, htwo⟩
  by_cases h2 : p = 2
  · exact Check_not_ok_of_flag _ _ _ (htwo h2).1
  · apply Check_not_ok_of_flag _ _ _ (hnp ?_)
    rcases h with h | h
    · by_cases hle : p ≤ 1
      · exact Or.inl hle
      · exact Or.inr ⟨h, by omega⟩
    · exact Or.inl (by omega)

/-- Witness for C16 at `p = 0`, `p = -7`, `p = 4` (p-not-prime) and `p = 2`
(p-not-safe-prime), with `g = 2`. -/
theorem C16_boundary_moduli_witness :
    (Check exactProbablyPrime ⟨0, 2, none, none⟩).2 = false ∧
    check exactProbablyPrime ⟨-7, 2, none, none⟩ &&& DH_CHECK_P_NOT_PRIME ≠ 0 ∧
    check exactProbablyPrime ⟨4, 2, none, none⟩ &&& DH_CHECK_P_NOT_PRIME ≠ 0 ∧
    (check exactProbablyPrime ⟨2, 2, none, none⟩ &&& DH_CHECK_P_NOT_SAFE_PRIME ≠ 0 ∧
      check exactProbablyPrime ⟨2, 2, none, none⟩ &&& DH_CHECK_P_NOT_PRIME = 0) :=
  ⟨(C16_boundary_moduli 0 2 none none).1 (Or.inl (by decide)),
   (C16_boundary_moduli (-7) 2 none none).2.1 (Or.inl (by decide)),
   (C16_boundary_moduli 4 2 none none).2.1 (Or.inr ⟨by decide, by decide⟩),
   (C16_boundary_moduli 2 2 none none).2.2 rfl⟩

end DHParam
